import Mathlib

/-!
Verification development for the TonyBox repository (src/player.py and
src/app.py): a shallow embedding of the NFC-triggered Spotify player loop
and of the registry web application, with theorems about the claims of the
specification.

Conventions of the embedding:
* Python strings are Lean `String`s (and `List Char` where character-level
  reasoning is needed, in the regex model).
* Each external call site (spotipy, the tag reader) is modelled by an
  environment field recording that call's outcome for the current tick:
  `none` means the call succeeds, `some e` means it raises exception `e`.
* Python exception handling is modelled explicitly: `except SpotifyException`
  catches only `PyExn.spotify`; `except Exception` catches `PyExn.spotify`
  and `PyExn.other` but not `PyExn.keyboardInterrupt` (KeyboardInterrupt
  derives from BaseException, not Exception).
* Each piece of straight-line code evaluates to a `PyResult`: the list of
  external calls it performed, the log lines it printed, and the exception
  escaping it (if any).
-/

namespace TonyBox

/-- Python exception classes relevant to player.py: `spotify` stands for
`spotipy.exceptions.SpotifyException`, `keyboardInterrupt` for
`KeyboardInterrupt`, `other` for any other `Exception` subclass. -/
inductive PyExn
  | spotify
  | keyboardInterrupt
  | other
deriving DecidableEq, Repr

/-- External calls performed by player.py. `registryLookup` is the SQLite
point-read of `get_tag_data`; the rest are spotipy Web API calls. -/
inductive Call
  | registryLookup (tagId : String)
  | transfer
  | startUris (uri : String)
  | startContext (uri : String)
  | pause
  | resume
  | nextTrack
  | prevTrack
  | currentPlayback
deriving DecidableEq, Repr

/-- Whether a call reaches the remote playback backend (spotipy); the
registry lookup is a local SQLite read, not a backend call. -/
def Call.isBackend : Call → Bool
  | Call.registryLookup _ => false
  | _ => true

/-- A row of the `tags` table as read by player.py (`SELECT spotify_uri,
media_type FROM tags WHERE tag_id = ?`). -/
structure Row where
  tag_id : String
  spotify_uri : String
  media_type : String
deriving DecidableEq, Repr

/-- `get_tag_data` (player.py lines 86-96): point-read of the registry,
`fetchone` takes the first matching row. -/
def get_tag_data (db : List Row) (tagId : String) : Option (String × String) :=
  (db.find? (fun r => r.tag_id == tagId)).map (fun r => (r.spotify_uri, r.media_type))

/-- Outcome of executing a block of player.py code: the external calls it
performed (in order), the log lines printed, and the escaping exception. -/
structure PyResult where
  calls : List Call
  logs : List String
  exn : Option PyExn
deriving DecidableEq, Repr

/-- Per-tick outcomes of all external operations, plus that tick's inputs:
the scanned tag identifier and the sampled button levels (`true` = the GPIO
line reads LOW, i.e. pressed, given pull-up wiring). -/
structure TickEnv where
  readTagExn : Option PyExn
  scannedTag : String
  transferExn : Option PyExn
  startExn : Option PyExn
  playbackQuery : Except PyExn (Option Bool)
  pauseExn : Option PyExn
  resumeExn : Option PyExn
  nextExn : Option PyExn
  prevExn : Option PyExn
  playPauseLow : Bool
  nextLow : Bool
  prevLow : Bool
deriving Repr

/-- `play_media` (player.py lines 101-121).  The first `try` wraps only the
device transfer and catches only `SpotifyException`, returning early on
that failure; any other exception escapes.  The second `try` wraps the
type dispatch and start call and catches every `Exception`.  An unknown
media type is logged inside the dispatch and issues no start call. -/
def play_media (env : TickEnv) (uri media_type : String) : PyResult :=
  match env.transferExn with
  | some PyExn.spotify =>
      { calls := [Call.transfer],
        logs := ["Could not transfer playback. Is the speaker online?"],
        exn := none }
  | some e => { calls := [Call.transfer], logs := [], exn := some e }
  | none =>
      if media_type = "track" then
        match env.startExn with
        | none => { calls := [Call.transfer, Call.startUris uri], logs := [], exn := none }
        | some PyExn.keyboardInterrupt =>
            { calls := [Call.transfer, Call.startUris uri], logs := [],
              exn := some PyExn.keyboardInterrupt }
        | some _ =>
            { calls := [Call.transfer, Call.startUris uri],
              logs := ["Error starting playback"], exn := none }
      else if media_type = "album" ∨ media_type = "playlist" then
        match env.startExn with
        | none => { calls := [Call.transfer, Call.startContext uri], logs := [], exn := none }
        | some PyExn.keyboardInterrupt =>
            { calls := [Call.transfer, Call.startContext uri], logs := [],
              exn := some PyExn.keyboardInterrupt }
        | some _ =>
            { calls := [Call.transfer, Call.startContext uri],
              logs := ["Error starting playback"], exn := none }
      else
        { calls := [Call.transfer],
          logs := ["Unknown media type " ++ media_type ++ " for URI: " ++ uri],
          exn := none }

/-- The tag-handling section of the main loop (player.py lines 162-177):
read the tag, suppress a duplicate of `last_tag_id`, otherwise look up the
registry and call `play_media`; `last_tag_id = tag_id` runs only after
`play_media` returns normally.  The whole section sits in
`try ... except Exception`, which logs and continues on any `Exception`
but lets `KeyboardInterrupt` escape. -/
def tagSection (db : List Row) (env : TickEnv) (last_tag_id : Option String) :
    Option String × PyResult :=
  match env.readTagExn with
  | some PyExn.keyboardInterrupt =>
      (last_tag_id, { calls := [], logs := [], exn := some PyExn.keyboardInterrupt })
  | some _ =>
      (last_tag_id, { calls := [], logs := ["AUTH ERROR!!"], exn := none })
  | none =>
      let tag_id := env.scannedTag
      if some tag_id = last_tag_id then
        (last_tag_id,
         { calls := [], logs := ["Duplicate scan detected; ignoring."], exn := none })
      else
        match get_tag_data db tag_id with
        | none =>
            (last_tag_id,
             { calls := [Call.registryLookup tag_id],
               logs := ["Tag scanned: " ++ tag_id, "Tag not found in database."],
               exn := none })
        | some (spotify_uri, media_type) =>
            let r := play_media env spotify_uri media_type
            let baseLogs := ["Tag scanned: " ++ tag_id,
                             "Playing " ++ media_type ++ ": " ++ spotify_uri] ++ r.logs
            match r.exn with
            | none =>
                (some tag_id,
                 { calls := Call.registryLookup tag_id :: r.calls,
                   logs := baseLogs, exn := none })
            | some PyExn.keyboardInterrupt =>
                (last_tag_id,
                 { calls := Call.registryLookup tag_id :: r.calls,
                   logs := baseLogs, exn := some PyExn.keyboardInterrupt })
            | some _ =>
                (last_tag_id,
                 { calls := Call.registryLookup tag_id :: r.calls,
                   logs := baseLogs ++ ["AUTH ERROR!!"], exn := none })

/-- `handle_play_pause` (player.py lines 126-136): print, query
`current_playback`, pause if a playback object exists and reports
`is_playing`, otherwise resume via a bare `start_playback()`; everything in
the `try` is caught by `except Exception` (which logs), except
`KeyboardInterrupt`.  `playbackQuery = Except.ok none` models
`current_playback()` returning `None`; `Except.ok (some b)` models a
playback object with `is_playing = b`. -/
def handle_play_pause (env : TickEnv) : PyResult :=
  match env.playbackQuery with
  | Except.error PyExn.keyboardInterrupt =>
      { calls := [Call.currentPlayback], logs := ["PlayPause button pressed"],
        exn := some PyExn.keyboardInterrupt }
  | Except.error _ =>
      { calls := [Call.currentPlayback],
        logs := ["PlayPause button pressed", "Error toggling playback"], exn := none }
  | Except.ok pb =>
      if pb = some true then
        match env.pauseExn with
        | none =>
            { calls := [Call.currentPlayback, Call.pause],
              logs := ["PlayPause button pressed"], exn := none }
        | some PyExn.keyboardInterrupt =>
            { calls := [Call.currentPlayback, Call.pause],
              logs := ["PlayPause button pressed"], exn := some PyExn.keyboardInterrupt }
        | some _ =>
            { calls := [Call.currentPlayback, Call.pause],
              logs := ["PlayPause button pressed", "Error toggling playback"], exn := none }
      else
        match env.resumeExn with
        | none =>
            { calls := [Call.currentPlayback, Call.resume],
              logs := ["PlayPause button pressed"], exn := none }
        | some PyExn.keyboardInterrupt =>
            { calls := [Call.currentPlayback, Call.resume],
              logs := ["PlayPause button pressed"], exn := some PyExn.keyboardInterrupt }
        | some _ =>
            { calls := [Call.currentPlayback, Call.resume],
              logs := ["PlayPause button pressed", "Error toggling playback"], exn := none }

/-- `handle_next` (player.py lines 138-144). -/
def handle_next (env : TickEnv) : PyResult :=
  match env.nextExn with
  | none => { calls := [Call.nextTrack], logs := ["Next Track button pressed"], exn := none }
  | some PyExn.keyboardInterrupt =>
      { calls := [Call.nextTrack], logs := ["Next Track button pressed"],
        exn := some PyExn.keyboardInterrupt }
  | some _ =>
      { calls := [Call.nextTrack],
        logs := ["Next Track button pressed", "Error skipping track"], exn := none }

/-- `handle_previous` (player.py lines 146-152). -/
def handle_previous (env : TickEnv) : PyResult :=
  match env.prevExn with
  | none => { calls := [Call.prevTrack], logs := ["Previous Track button pressed"], exn := none }
  | some PyExn.keyboardInterrupt =>
      { calls := [Call.prevTrack], logs := ["Previous Track button pressed"],
        exn := some PyExn.keyboardInterrupt }
  | some _ =>
      { calls := [Call.prevTrack],
        logs := ["Previous Track button pressed", "Error going to previous track"], exn := none }

/-- Sequencing of two Python statements: if the first raises, the second
never runs and the exception propagates. -/
def seqResult (r : PyResult) (s : PyResult) : PyResult :=
  match r.exn with
  | some _ => r
  | none => { calls := r.calls ++ s.calls, logs := r.logs ++ s.logs, exn := s.exn }

/-- A block that does nothing (an `if` whose GPIO level reads HIGH). -/
def skipResult : PyResult := { calls := [], logs := [], exn := none }

/-- The button-polling section of the main loop (player.py lines 180-190):
three `if GPIO.input(pin) == GPIO.LOW` blocks, in the fixed order
Play/Pause, Next, Previous.  GPIO.input itself is treated as infallible;
note this section is NOT wrapped in any try/except of its own. -/
def buttonSection (env : TickEnv) : PyResult :=
  seqResult (if env.playPauseLow then handle_play_pause env else skipResult)
    (seqResult (if env.nextLow then handle_next env else skipResult)
      (if env.prevLow then handle_previous env else skipResult))

/-- One iteration of the `while True` loop (player.py lines 160-192): the
tag section (with its own try/except) followed by the button section;
an exception escaping the tag section skips the button section. -/
def tick (db : List Row) (env : TickEnv) (last_tag_id : Option String) :
    Option String × PyResult :=
  let (last, r) := tagSection db env last_tag_id
  match r.exn with
  | some _ => (last, r)
  | none =>
      let s := buttonSection env
      (last, { calls := r.calls ++ s.calls, logs := r.logs ++ s.logs, exn := s.exn })

/-- Observable actions of the whole process, for the shutdown model:
external calls, log lines, and the `GPIO.cleanup()` hardware reset. -/
inductive Action
  | call (c : Call)
  | log (s : String)
  | cleanup
deriving DecidableEq, Repr

/-- Flatten a tick's outcome into the process trace. -/
def actionsOfResult (r : PyResult) : List Action :=
  r.calls.map Action.call ++ r.logs.map Action.log

/-- The whole process (player.py lines 159-201): run ticks until one raises;
`except KeyboardInterrupt` logs a graceful-exit line, any other escaping
exception is not caught; the `finally` block runs `GPIO.cleanup()` exactly
on the way out in either case.  `fuel` bounds how many ticks we observe:
`none` means the loop was still running after `fuel` ticks, `some trace`
means the process exited with that action trace. -/
def runLoop (db : List Row) (envs : Nat → TickEnv) :
    Option String → Nat → Nat → Option (List Action)
  | _, _, 0 => none
  | last, k, n + 1 =>
      match tick db (envs k) last with
      | (last2, r) =>
          match r.exn with
          | none => (runLoop db envs last2 (k + 1) n).map (fun tr => actionsOfResult r ++ tr)
          | some e =>
              some (actionsOfResult r ++
                (if e = PyExn.keyboardInterrupt then [Action.log "Exiting gracefully..."] else []) ++
                [Action.cleanup])

/-! ### Timing model of the button loop

player.py has no per-button timestamp: the only debouncing is the blocking
`sleep(0.3)` that follows an honored press, plus the `sleep(0.1)` loop
delay.  We model real time in milliseconds and the loop as advancing a
clock: sampling is instantaneous, an honored press advances the clock by
300, the end of an iteration by 100, and the tag section by an arbitrary
duration (reader.read() blocks). -/

/-- The three physical buttons, in the order the loop polls them. -/
inductive Button
  | playPause
  | nextTrack
  | prevTrack
deriving DecidableEq, Repr

/-- Physical timeline: `level b t` is true when button `b`'s line reads LOW
(pressed) at millisecond `t`; `tagDur t` is how long the tag section takes
when entered at time `t`. -/
structure TimedEnv where
  level : Button → Nat → Bool
  tagDur : Nat → Nat

/-- Poll one button at time `t`: if its line is LOW the press is honored
(the handler runs) and the loop sleeps 300 ms. -/
def pollButton (env : TimedEnv) (b : Button) (t : Nat) : List (Button × Nat) × Nat :=
  if env.level b t then ([(b, t)], t + 300) else ([], t)

/-- One iteration of the main loop on the timeline: the tag section, then
the three button polls in order, then the 100 ms loop delay.  Returns the
honored presses (button, sample time) and the iteration end time. -/
def loopIter (env : TimedEnv) (t : Nat) : List (Button × Nat) × Nat :=
  let t0 := t + env.tagDur t
  let p1 := pollButton env Button.playPause t0
  let p2 := pollButton env Button.nextTrack p1.2
  let p3 := pollButton env Button.prevTrack p2.2
  (p1.1 ++ p2.1 ++ p3.1, p3.2 + 100)

/-- `n` iterations of the loop starting at time `t`: all honored presses in
order. -/
def runButtons (env : TimedEnv) : Nat → Nat → List (Button × Nat)
  | _, 0 => []
  | t, n + 1 =>
      let p := loopIter env t
      p.1 ++ runButtons env p.2 n

/-! ### app.py: link extraction and the /add route -/

/-- Match a literal pattern at the head of the input; return the rest of
the input on success. -/
def dropLit : List Char → List Char → Option (List Char)
  | [], s => some s
  | _ :: _, [] => none
  | p :: ps, c :: cs => if c = p then dropLit ps cs else none

/-- Greedily take the maximal leading run of `[a-zA-Z0-9]` characters
(the semantics of the greedy `[a-zA-Z0-9]+` with nothing after it). -/
def takeAlnum : List Char → List Char × List Char
  | [] => ([], [])
  | c :: cs =>
      if c.isAlphanum then
        let p := takeAlnum cs
        (c :: p.1, p.2)
      else ([], c :: cs)

/-- The alternation `(track|album|playlist)\/`: try each branch in the
regex's order at the current position. -/
def matchType (s : List Char) : Option (List Char × List Char) :=
  match dropLit "track/".data s with
  | some s2 => some ("track".data, s2)
  | none =>
      match dropLit "album/".data s with
      | some s2 => some ("album".data, s2)
      | none =>
          match dropLit "playlist/".data s with
          | some s2 => some ("playlist".data, s2)
          | none => none

/-- Attempt the whole pattern
`open\.spotify\.com\/(track|album|playlist)\/([a-zA-Z0-9]+)` anchored at
the current position; on success return the two capture groups. -/
def matchHere (s : List Char) : Option (List Char × List Char) :=
  match dropLit "open.spotify.com/".data s with
  | none => none
  | some s1 =>
      match matchType s1 with
      | none => none
      | some (ty, s2) =>
          match takeAlnum s2 with
          | ([], _) => none
          | (i :: is, _) => some (ty, i :: is)

/-- `re.search`: leftmost position where the pattern matches. -/
def searchLink : List Char → Option (List Char × List Char)
  | [] => none
  | c :: cs =>
      match matchHere (c :: cs) with
      | some r => some r
      | none => searchLink cs

/-- `extract_uri_and_type` (app.py lines 32-37): on a match, build
`spotify:<type>:<id>` and return it with the media type; on no match
return `(None, None)`, modelled as `none`. -/
def extract_uri_and_type (link : String) : Option (String × String) :=
  match searchLink link.data with
  | none => none
  | some (ty, idChars) =>
      some (String.mk ("spotify:".data ++ ty ++ [':'] ++ idChars), String.mk ty)

/-- A full row of the `tags` table as written by app.py. -/
structure DbRow where
  tag_id : String
  spotify_uri : String
  media_type : String
  comment : String
deriving DecidableEq, Repr

/-- The form fields of the /add (and /edit) requests. -/
structure FormData where
  tag_id : String
  spotify_link : String
  comment : String
deriving DecidableEq, Repr

/-- HTTP response of the /add route. -/
inductive AddResponse
  | badRequest (msg : String)
  | redirectIndex
deriving DecidableEq, Repr

/-- The /add route (app.py lines 46-60): extract URI and type from the
submitted link; on failure answer 400 without touching the table; on
success insert the row and redirect to the index.  (The autoincremented
primary key plays no role in insertion, so this view of the table elides
row ids.) -/
def add (db : List DbRow) (form : FormData) : List DbRow × AddResponse :=
  match extract_uri_and_type form.spotify_link with
  | none => (db, AddResponse.badRequest "Invalid Spotify link")
  | some (uri, mt) =>
      (db ++ [{ tag_id := form.tag_id, spotify_uri := uri,
                media_type := mt, comment := form.comment }],
       AddResponse.redirectIndex)

/-- The /edit route (app.py lines 72-88): extract URI and type from the
submitted link; on failure answer 400 without touching the table; on
success run `UPDATE tags SET tag_id, spotify_uri, media_type, comment
WHERE id = ?` and redirect.  The table is viewed as a list of
(primary-key id, row) pairs; the UPDATE rewrites every row whose id
matches (the primary key makes it at most one). -/
def edit (db : List (Nat × DbRow)) (rowId : Nat) (form : FormData) :
    List (Nat × DbRow) × AddResponse :=
  match extract_uri_and_type form.spotify_link with
  | none => (db, AddResponse.badRequest "Invalid Spotify link")
  | some (uri, mt) =>
      (db.map (fun p =>
        if p.1 = rowId then
          (p.1, { tag_id := form.tag_id, spotify_uri := uri,
                  media_type := mt, comment := form.comment })
        else p),
       AddResponse.redirectIndex)

/-! ### Concrete instances used by counterexamples and witnesses -/

/-- A quiet tick: every external call succeeds, no button is pressed, the
reader scans tag "42". -/
def baseEnv : TickEnv :=
  { readTagExn := none, scannedTag := "42", transferExn := none, startExn := none,
    playbackQuery := Except.ok none, pauseExn := none, resumeExn := none,
    nextExn := none, prevExn := none,
    playPauseLow := false, nextLow := false, prevLow := false }

/-- A registry holding one row: tag "42" mapped to a track. -/
def dbOne : List Row :=
  [{ tag_id := "42", spotify_uri := "spotify:track:abc123", media_type := "track" }]

/-- A tick in which the device transfer fails with a SpotifyException. -/
def envTransferFail : TickEnv := { baseEnv with transferExn := some PyExn.spotify }

/-- A tick scanning tag "77" (absent from `dbOne` and from the empty
registry). -/
def envScan77 : TickEnv := { baseEnv with scannedTag := "77" }

/-- A tick in which reader.read() raises KeyboardInterrupt. -/
def envInterrupt : TickEnv := { baseEnv with readTagExn := some PyExn.keyboardInterrupt }

/-- A tick with the Play/Pause button held while the backend reports active
playback; the scan duplicates tag "42". -/
def envPressPlaying : TickEnv :=
  { baseEnv with playPauseLow := true, playbackQuery := Except.ok (some true) }

/-- As `envPressPlaying`, but the pause command itself fails with a caught
SpotifyException. -/
def envPressPauseFail : TickEnv := { envPressPlaying with pauseExn := some PyExn.spotify }

/-- A tick in which reader.read() raises a non-interrupt exception, caught
by the tag section's `except Exception`. -/
def envAuthFail : TickEnv := { baseEnv with readTagExn := some PyExn.other }

/-- A stored registry row used to exercise the /edit route. -/
def rowOld : DbRow :=
  { tag_id := "5", spotify_uri := "spotify:track:old1", media_type := "track", comment := "c" }

/-- A physical timeline where the Previous button is pressed during
[10, 20) and again during [340, 350), with an instantaneous tag section. -/
def envPressTwice : TimedEnv :=
  { level := fun b t =>
      decide (b = Button.prevTrack ∧ ((10 ≤ t ∧ t < 20) ∨ (340 ≤ t ∧ t < 350))),
    tagDur := fun _ => 0 }

/-! ### Theorems -/

/-- C4: for every scanned tag identifier that has no row in the registry,
no backend call is made in that tick (only the local registry lookup), the
miss is logged, and no exception escapes, so the loop continues polling. -/
theorem registry_miss_no_backend (db : List Row) (env : TickEnv) (last : Option String)
    (h1 : env.readTagExn = none) (h2 : some env.scannedTag ≠ last)
    (h3 : get_tag_data db env.scannedTag = none) :
    tagSection db env last =
      (last,
       { calls := [Call.registryLookup env.scannedTag],
         logs := ["Tag scanned: " ++ env.scannedTag, "Tag not found in database."],
         exn := none }) ∧
    ∀ c ∈ (tagSection db env last).2.calls, c.isBackend = false := by
  have he : tagSection db env last =
      (last,
       { calls := [Call.registryLookup env.scannedTag],
         logs := ["Tag scanned: " ++ env.scannedTag, "Tag not found in database."],
         exn := none }) := by
    simp [tagSection, h1, h2, h3]
  refine ⟨he, ?_⟩
  rw [he]
  simp [Call.isBackend]

/-- C4 witness: the miss behaviour at a concrete input (tag "77", empty
registry). -/
theorem registry_miss_no_backend_w :
    tagSection [] envScan77 none =
      (none,
       { calls := [Call.registryLookup envScan77.scannedTag],
         logs := ["Tag scanned: " ++ envScan77.scannedTag, "Tag not found in database."],
         exn := none }) :=
  (registry_miss_no_backend [] envScan77 none rfl (by decide) rfl).1

/-- C10: a scan of a tag identifier absent from the registry leaves
`last_tag_id` unchanged, and a subsequent tick scanning the same identifier
performs a fresh registry lookup and logs the scan again rather than being
suppressed as a duplicate. -/
theorem unregistered_tag_not_latched (db : List Row) (env : TickEnv) (last : Option String)
    (h1 : env.readTagExn = none) (h2 : some env.scannedTag ≠ last)
    (h3 : get_tag_data db env.scannedTag = none) :
    (tagSection db env last).1 = last ∧
    Call.registryLookup env.scannedTag ∈
      (tagSection db env (tagSection db env last).1).2.calls ∧
    ("Tag scanned: " ++ env.scannedTag) ∈
      (tagSection db env (tagSection db env last).1).2.logs := by
  have hfst : (tagSection db env last).1 = last := by
    simp [tagSection, h1, h2, h3]
  refine ⟨hfst, ?_, ?_⟩ <;> rw [hfst] <;> simp [tagSection, h1, h2, h3]

/-- C10 witness: concrete unregistered tag "77" scanned twice. -/
theorem unregistered_tag_not_latched_w :
    (tagSection [] envScan77 none).1 = none ∧
    Call.registryLookup envScan77.scannedTag ∈
      (tagSection [] envScan77 (tagSection [] envScan77 none).1).2.calls ∧
    ("Tag scanned: " ++ envScan77.scannedTag) ∈
      (tagSection [] envScan77 (tagSection [] envScan77 none).1).2.logs :=
  unregistered_tag_not_latched [] envScan77 none rfl (by decide) rfl

/-- C1 counterexample: the claim says a failed device-transfer call leaves
`last_tag_id` unchanged.  In the code, `play_media` catches the
SpotifyException and returns normally, after which the main loop still
executes `last_tag_id = tag_id`: at this concrete input the transfer fails
yet the slot advances from `none` to `some "42"`. -/
theorem transfer_fail_latches_cx :
    envTransferFail.transferExn = some PyExn.spotify ∧
    (tagSection dbOne envTransferFail none).1 = some "42" ∧
    (none : Option String) ≠ some "42" ∧
    "Could not transfer playback. Is the speaker online?" ∈
      (tagSection dbOne envTransferFail none).2.logs := by
  decide

/-- C1 amended: when the transfer call fails with the backend API exception
(SpotifyException), the failure is logged and no start call is issued, but
`last_tag_id` is still advanced to the scanned tag, so a rescan of the same
tag is suppressed as a duplicate (no calls at all) instead of retrying the
transfer. -/
theorem transfer_fail_advances_slot (db : List Row) (env env2 : TickEnv)
    (last : Option String) (uri mt : String)
    (h1 : env.readTagExn = none) (h2 : some env.scannedTag ≠ last)
    (h3 : get_tag_data db env.scannedTag = some (uri, mt))
    (h4 : env.transferExn = some PyExn.spotify)
    (h5 : env2.readTagExn = none) (h6 : env2.scannedTag = env.scannedTag) :
    (tagSection db env last).1 = some env.scannedTag ∧
    (∀ u, Call.startUris u ∉ (tagSection db env last).2.calls ∧
          Call.startContext u ∉ (tagSection db env last).2.calls) ∧
    "Could not transfer playback. Is the speaker online?" ∈
      (tagSection db env last).2.logs ∧
    (tagSection db env2 (tagSection db env last).1).2.calls = [] := by
  have he : tagSection db env last =
      (some env.scannedTag,
       { calls := [Call.registryLookup env.scannedTag, Call.transfer],
         logs := ["Tag scanned: " ++ env.scannedTag,
                  "Playing " ++ mt ++ ": " ++ uri,
                  "Could not transfer playback. Is the speaker online?"],
         exn := none }) := by
    simp [tagSection, play_media, h1, h2, h3, h4]
  rw [he]
  refine ⟨rfl, by simp, by simp, ?_⟩
  simp [tagSection, h5, h6]

/-- C1 amended witness: the concrete failed-transfer tick, followed by a
rescan of the same tag that is suppressed. -/
theorem transfer_fail_advances_slot_w :
    (tagSection dbOne envTransferFail none).1 = some envTransferFail.scannedTag ∧
    (∀ u, Call.startUris u ∉ (tagSection dbOne envTransferFail none).2.calls ∧
          Call.startContext u ∉ (tagSection dbOne envTransferFail none).2.calls) ∧
    "Could not transfer playback. Is the speaker online?" ∈
      (tagSection dbOne envTransferFail none).2.logs ∧
    (tagSection dbOne envTransferFail (tagSection dbOne envTransferFail none).1).2.calls = [] :=
  transfer_fail_advances_slot dbOne envTransferFail envTransferFail none
    "spotify:track:abc123" "track" rfl (by decide) rfl rfl rfl rfl

/-- C2 counterexample: the claim says that of consecutive identical scans
only the first triggers a registry lookup.  With an empty registry, a scan
of "77" misses, `last_tag_id` stays `none`, and the very next identical scan
performs the registry lookup again. -/
theorem duplicate_scan_second_lookup_cx :
    Call.registryLookup "77" ∈ (tagSection [] envScan77 none).2.calls ∧
    (tagSection [] envScan77 none).1 = none ∧
    Call.registryLookup "77" ∈
      (tagSection [] envScan77 (tagSection [] envScan77 none).1).2.calls := by
  decide

/-- C2 amended: the de-duplication key is the single slot `last_tag_id`
with no time-based expiry: a scan equal to the slot is a no-op (no lookup,
no backend call); any other scan performs the registry lookup; and the slot
advances to the scanned tag exactly when the lookup hits and `play_media`
returns without an escaping exception (in particular a registry miss leaves
the slot unchanged, so such a scan is repeated, not suppressed). -/
theorem dedup_single_slot (db : List Row) (env : TickEnv) (last : Option String)
    (h : env.readTagExn = none) :
    (some env.scannedTag = last →
        tagSection db env last =
          (last, { calls := [], logs := ["Duplicate scan detected; ignoring."], exn := none })) ∧
    (some env.scannedTag ≠ last →
        Call.registryLookup env.scannedTag ∈ (tagSection db env last).2.calls) ∧
    (some env.scannedTag ≠ last →
        ((tagSection db env last).1 = some env.scannedTag ↔
          ∃ uri mt, get_tag_data db env.scannedTag = some (uri, mt) ∧
            (play_media env uri mt).exn = none)) ∧
    (some env.scannedTag ≠ last →
        ((tagSection db env last).1 = some env.scannedTag ∨
         (tagSection db env last).1 = last)) := by
  refine ⟨?_, ?_, ?_, ?_⟩
  · intro hd
    simp [tagSection, h, hd]
  · intro hne
    rcases hl : get_tag_data db env.scannedTag with _ | p
    · simp [tagSection, h, hne, hl]
    · obtain ⟨uri, mt⟩ := p
      rcases he : (play_media env uri mt).exn with _ | e
      · simp [tagSection, h, hne, hl, he]
      · cases e <;> simp [tagSection, h, hne, hl, he]
  · intro hne
    rcases hl : get_tag_data db env.scannedTag with _ | p
    · simp [tagSection, h, hne, hl, Ne.symm hne]
    · obtain ⟨uri, mt⟩ := p
      rcases he : (play_media env uri mt).exn with _ | e
      · simp [tagSection, h, hne, hl, he]
        exact ⟨uri, mt, ⟨rfl, rfl⟩, he⟩
      · cases e <;> simp [tagSection, h, hne, hl, he, Ne.symm hne]
  · intro hne
    rcases hl : get_tag_data db env.scannedTag with _ | p
    · simp [tagSection, h, hne, hl]
    · obtain ⟨uri, mt⟩ := p
      rcases he : (play_media env uri mt).exn with _ | e
      · simp [tagSection, h, hne, hl, he]
      · cases e <;> simp [tagSection, h, hne, hl, he]

/-- C2 amended witness: a duplicate scan of the latched tag "42" is a
complete no-op. -/
theorem dedup_single_slot_w :
    tagSection dbOne baseEnv (some "42") =
      (some "42",
       { calls := [], logs := ["Duplicate scan detected; ignoring."], exn := none }) :=
  (dedup_single_slot dbOne baseEnv (some "42") rfl).1 rfl

/-- C3 counterexample: the claim says that for an unknown media type no
backend call is made.  In the code the device-transfer call precedes the
type dispatch: driving an unknown type "show" through `play_media` with a
reachable device issues the transfer backend call. -/
theorem unknown_type_backend_call_cx :
    baseEnv.transferExn = none ∧
    play_media baseEnv "spotify:show:xyz" "show" =
      { calls := [Call.transfer],
        logs := ["Unknown media type show for URI: spotify:show:xyz"],
        exn := none } ∧
    (play_media baseEnv "spotify:show:xyz" "show").calls ≠ [] ∧
    Call.transfer.isBackend = true := by
  decide

/-- C3 amended: after a successful device transfer, `media_type = track`
issues a start call with a single-track URI list, `album` or `playlist`
issues a start call with a context URI, and any other value is logged as a
validation failure with no start call issued (the transfer call has already
been made before the type check). -/
theorem media_type_dispatch (env : TickEnv) (uri mt : String)
    (ht : env.transferExn = none) :
    (mt = "track" →
        (play_media env uri mt).calls = [Call.transfer, Call.startUris uri]) ∧
    (mt = "album" ∨ mt = "playlist" →
        (play_media env uri mt).calls = [Call.transfer, Call.startContext uri]) ∧
    (mt ≠ "track" → mt ≠ "album" → mt ≠ "playlist" →
        (play_media env uri mt).calls = [Call.transfer] ∧
        ("Unknown media type " ++ mt ++ " for URI: " ++ uri) ∈ (play_media env uri mt).logs ∧
        ∀ u, Call.startUris u ∉ (play_media env uri mt).calls ∧
             Call.startContext u ∉ (play_media env uri mt).calls) := by
  refine ⟨?_, ?_, ?_⟩
  · rintro rfl
    rcases hs : env.startExn with _ | e
    · simp [play_media, ht, hs]
    · cases e <;> simp [play_media, ht, hs]
  · intro hmt
    rcases hs : env.startExn with _ | e
    · rcases hmt with rfl | rfl <;> simp [play_media, ht, hs]
    · cases e <;> rcases hmt with rfl | rfl <;> simp [play_media, ht, hs]
  · intro hn1 hn2 hn3
    have hor : ¬(mt = "album" ∨ mt = "playlist") := by
      rintro (h | h) <;> [exact hn2 h; exact hn3 h]
    rcases hs : env.startExn with _ | e
    · simp [play_media, ht, hs, hn1, hor]
    · cases e <;> simp [play_media, ht, hs, hn1, hor]

/-- C3 amended witness: concrete dispatch at media type "podcast". -/
theorem media_type_dispatch_w :
    (play_media baseEnv "spotify:podcast:1" "podcast").calls = [Call.transfer] ∧
    ("Unknown media type " ++ "podcast" ++ " for URI: " ++ "spotify:podcast:1") ∈
      (play_media baseEnv "spotify:podcast:1" "podcast").logs ∧
    ∀ u, Call.startUris u ∉ (play_media baseEnv "spotify:podcast:1" "podcast").calls ∧
         Call.startContext u ∉ (play_media baseEnv "spotify:podcast:1" "podcast").calls :=
  (media_type_dispatch baseEnv "spotify:podcast:1" "podcast" rfl).2.2
    (by decide) (by decide) (by decide)

/-- Sequencing with a skipped block on the right is the identity. -/
theorem seqResult_skip (r : PyResult) : seqResult r skipResult = r := by
  rcases r with ⟨cs, ls, ex⟩
  cases ex <;> simp [seqResult, skipResult]

/-- Sequencing with a skipped block on the left is the identity. -/
theorem skip_seqResult (s : PyResult) : seqResult skipResult s = s := by
  rcases s with ⟨cs, ls, ex⟩
  simp [seqResult, skipResult]

/-- A tick whose scan duplicates the latched tag reduces to the duplicate
log followed by the button section. -/
theorem tick_dup (db : List Row) (env : TickEnv) (last : Option String)
    (h1 : env.readTagExn = none) (h2 : last = some env.scannedTag) :
    tick db env last =
      (last,
       { calls := (buttonSection env).calls,
         logs := "Duplicate scan detected; ignoring." :: (buttonSection env).logs,
         exn := (buttonSection env).exn }) := by
  simp [tick, tagSection, h1, h2]

/-- When only the Play/Pause line reads LOW, the button section is exactly
the Play/Pause handler. -/
theorem buttonSection_pp_only (env : TickEnv)
    (h3 : env.playPauseLow = true) (h4 : env.nextLow = false) (h5 : env.prevLow = false) :
    buttonSection env = handle_play_pause env := by
  simp [buttonSection, h3, h4, h5, seqResult_skip, skip_seqResult]

/-- Play/Pause handler when the backend reports active playback: a pause
command follows the state query (whether or not the pause call then fails
with a caught exception). -/
theorem hpp_pause (env : TickEnv) (hq : env.playbackQuery = Except.ok (some true))
    (h7 : env.pauseExn ≠ some PyExn.keyboardInterrupt) :
    (handle_play_pause env).calls = [Call.currentPlayback, Call.pause] ∧
    (handle_play_pause env).exn = none := by
  rcases hp : env.pauseExn with _ | e
  · simp [handle_play_pause, hq, hp]
  · cases e
    · simp [handle_play_pause, hq, hp]
    · exact absurd hp h7
    · simp [handle_play_pause, hq, hp]

/-- Play/Pause handler when the backend does not report active playback
(no playback object, or paused): a resume command follows the query. -/
theorem hpp_resume (env : TickEnv) (pb : Option Bool)
    (hq : env.playbackQuery = Except.ok pb) (hpb : pb ≠ some true)
    (h8 : env.resumeExn ≠ some PyExn.keyboardInterrupt) :
    (handle_play_pause env).calls = [Call.currentPlayback, Call.resume] ∧
    (handle_play_pause env).exn = none := by
  rcases hr : env.resumeExn with _ | e
  · simp [handle_play_pause, hq, hpb, hr]
  · cases e
    · simp [handle_play_pause, hq, hpb, hr]
    · exact absurd hr h8
    · simp [handle_play_pause, hq, hpb, hr]

/-- Play/Pause handler when the state query raises a caught exception:
only the query call was made, the error is logged, nothing escapes. -/
theorem hpp_query_error (env : TickEnv) (e : PyExn)
    (hq : env.playbackQuery = Except.error e) (he : e ≠ PyExn.keyboardInterrupt) :
    (handle_play_pause env).calls = [Call.currentPlayback] ∧
    "Error toggling playback" ∈ (handle_play_pause env).logs ∧
    (handle_play_pause env).exn = none := by
  cases e
  · simp [handle_play_pause, hq]
  · exact absurd rfl he
  · simp [handle_play_pause, hq]

/-- Play/Pause handler when the pause command raises a caught exception:
the failure is logged. -/
theorem hpp_pause_fail (env : TickEnv) (hq : env.playbackQuery = Except.ok (some true))
    (e : PyExn) (hp : env.pauseExn = some e) (he : e ≠ PyExn.keyboardInterrupt) :
    "Error toggling playback" ∈ (handle_play_pause env).logs := by
  cases e
  · simp [handle_play_pause, hq, hp]
  · exact absurd rfl he
  · simp [handle_play_pause, hq, hp]

/-- Play/Pause handler when the resume command raises a caught exception:
the failure is logged. -/
theorem hpp_resume_fail (env : TickEnv) (pb : Option Bool)
    (hq : env.playbackQuery = Except.ok pb) (hpb : pb ≠ some true)
    (e : PyExn) (hr : env.resumeExn = some e) (he : e ≠ PyExn.keyboardInterrupt) :
    "Error toggling playback" ∈ (handle_play_pause env).logs := by
  cases e
  · simp [handle_play_pause, hq, hpb, hr]
  · exact absurd rfl he
  · simp [handle_play_pause, hq, hpb, hr]

/-- C6: on an honored Play/Pause press (modelled as a tick whose scan is a
suppressed duplicate, so only the button section acts), the controller
first queries the current playback state; if it reports actively playing a
pause call is issued, otherwise a resume call; a failure of the query or of
the command (pause or resume) is logged, leaves `last_tag_id` unchanged and
escapes no exception, so the next press starts from scratch. -/
theorem play_pause_toggle (db : List Row) (env : TickEnv) (last : Option String)
    (h1 : env.readTagExn = none) (h2 : last = some env.scannedTag)
    (h3 : env.playPauseLow = true) (h4 : env.nextLow = false) (h5 : env.prevLow = false)
    (h6 : env.playbackQuery ≠ Except.error PyExn.keyboardInterrupt)
    (h7 : env.pauseExn ≠ some PyExn.keyboardInterrupt)
    (h8 : env.resumeExn ≠ some PyExn.keyboardInterrupt) :
    (tick db env last).1 = last ∧
    (tick db env last).2.exn = none ∧
    (env.playbackQuery = Except.ok (some true) →
        (tick db env last).2.calls = [Call.currentPlayback, Call.pause]) ∧
    (∀ pb, env.playbackQuery = Except.ok pb → pb ≠ some true →
        (tick db env last).2.calls = [Call.currentPlayback, Call.resume]) ∧
    (∀ e, env.playbackQuery = Except.error e →
        (tick db env last).2.calls = [Call.currentPlayback] ∧
        "Error toggling playback" ∈ (tick db env last).2.logs) ∧
    (∀ e, env.playbackQuery = Except.ok (some true) → env.pauseExn = some e →
        "Error toggling playback" ∈ (tick db env last).2.logs) ∧
    (∀ pb e, env.playbackQuery = Except.ok pb → pb ≠ some true →
        env.resumeExn = some e →
        "Error toggling playback" ∈ (tick db env last).2.logs) := by
  rw [tick_dup db env last h1 h2, buttonSection_pp_only env h3 h4 h5]
  refine ⟨rfl, ?_, ?_, ?_, ?_, ?_, ?_⟩
  · rcases hq : env.playbackQuery with e | pb
    · cases e
      · exact (hpp_query_error env _ hq (by decide)).2.2
      · exact absurd hq h6
      · exact (hpp_query_error env _ hq (by decide)).2.2
    · by_cases hpb : pb = some true
      · subst hpb
        exact (hpp_pause env hq h7).2
      · exact (hpp_resume env pb hq hpb h8).2
  · intro hq
    exact (hpp_pause env hq h7).1
  · intro pb hq hpb
    exact (hpp_resume env pb hq hpb h8).1
  · intro e hq
    have he : e ≠ PyExn.keyboardInterrupt := by
      rintro rfl
      exact h6 hq
    exact ⟨(hpp_query_error env e hq he).1, by
      simpa using (hpp_query_error env e hq he).2.1⟩
  · intro e hq hp
    have he : e ≠ PyExn.keyboardInterrupt := by
      rintro rfl
      exact h7 hp
    simpa using List.mem_cons_of_mem "Duplicate scan detected; ignoring."
      (hpp_pause_fail env hq e hp he)
  · intro pb e hq hpb hr
    have he : e ≠ PyExn.keyboardInterrupt := by
      rintro rfl
      exact h8 hr
    simpa using List.mem_cons_of_mem "Duplicate scan detected; ignoring."
      (hpp_resume_fail env pb hq hpb e hr he)

/-- C6 witness: a concrete honored press while a track is playing issues
query-then-pause, leaves the latched tag unchanged, and when the pause
command itself fails the failure is logged. -/
theorem play_pause_toggle_w :
    (tick dbOne envPressPauseFail (some "42")).1 = some "42" ∧
    (tick dbOne envPressPauseFail (some "42")).2.calls =
      [Call.currentPlayback, Call.pause] ∧
    "Error toggling playback" ∈ (tick dbOne envPressPauseFail (some "42")).2.logs :=
  have h := play_pause_toggle dbOne envPressPauseFail (some "42")
    rfl rfl rfl rfl rfl (by simp [envPressPauseFail, envPressPlaying, baseEnv])
    (by decide) (by decide)
  ⟨h.1, h.2.2.1 rfl, h.2.2.2.2.2.1 PyExn.spotify rfl rfl⟩

/-- The Play/Pause handler catches every `Exception`; only
KeyboardInterrupt can escape it. -/
theorem handle_play_pause_exn (env : TickEnv) :
    (handle_play_pause env).exn = none ∨
    (handle_play_pause env).exn = some PyExn.keyboardInterrupt := by
  rcases hq : env.playbackQuery with e | pb
  · cases e <;> simp [handle_play_pause, hq]
  · by_cases hpb : pb = some true
    · subst hpb
      rcases hp : env.pauseExn with _ | e
      · simp [handle_play_pause, hq, hp]
      · cases e <;> simp [handle_play_pause, hq, hp]
    · rcases hr : env.resumeExn with _ | e
      · simp [handle_play_pause, hq, hpb, hr]
      · cases e <;> simp [handle_play_pause, hq, hpb, hr]

/-- The Next handler catches every `Exception`; only KeyboardInterrupt can
escape it. -/
theorem handle_next_exn (env : TickEnv) :
    (handle_next env).exn = none ∨
    (handle_next env).exn = some PyExn.keyboardInterrupt := by
  rcases hn : env.nextExn with _ | e
  · simp [handle_next, hn]
  · cases e <;> simp [handle_next, hn]

/-- The Previous handler catches every `Exception`; only KeyboardInterrupt
can escape it. -/
theorem handle_previous_exn (env : TickEnv) :
    (handle_previous env).exn = none ∨
    (handle_previous env).exn = some PyExn.keyboardInterrupt := by
  rcases hp : env.prevExn with _ | e
  · simp [handle_previous, hp]
  · cases e <;> simp [handle_previous, hp]

/-- Sequencing preserves "nothing but KeyboardInterrupt escapes". -/
theorem seqResult_exn (r s : PyResult)
    (hr : r.exn = none ∨ r.exn = some PyExn.keyboardInterrupt)
    (hs : s.exn = none ∨ s.exn = some PyExn.keyboardInterrupt) :
    (seqResult r s).exn = none ∨ (seqResult r s).exn = some PyExn.keyboardInterrupt := by
  rcases hr with h | h <;> simp [seqResult, h, hs]

/-- Only KeyboardInterrupt can escape the button section. -/
theorem buttonSection_exn (env : TickEnv) :
    (buttonSection env).exn = none ∨
    (buttonSection env).exn = some PyExn.keyboardInterrupt := by
  unfold buttonSection
  apply seqResult_exn
  · cases h : env.playPauseLow
    · simp [h, skipResult]
    · simpa [h] using handle_play_pause_exn env
  · apply seqResult_exn
    · cases h : env.nextLow
      · simp [h, skipResult]
      · simpa [h] using handle_next_exn env
    · cases h : env.prevLow
      · simp [h, skipResult]
      · simpa [h] using handle_previous_exn env

/-- The tag section sits in `try ... except Exception`; only
KeyboardInterrupt can escape it. -/
theorem tagSection_exn (db : List Row) (env : TickEnv) (last : Option String) :
    (tagSection db env last).2.exn = none ∨
    (tagSection db env last).2.exn = some PyExn.keyboardInterrupt := by
  rcases hr : env.readTagExn with _ | e
  · by_cases hd : some env.scannedTag = last
    · simp [tagSection, hr, hd]
    · rcases hl : get_tag_data db env.scannedTag with _ | p
      · simp [tagSection, hr, hd, hl]
      · obtain ⟨uri, mt⟩ := p
        rcases he : (play_media env uri mt).exn with _ | e2
        · simp [tagSection, hr, hd, hl, he]
        · cases e2 <;> simp [tagSection, hr, hd, hl, he]
  · cases e <;> simp [tagSection, hr]

/-- The only exception that can escape a tick (and hence terminate the
loop) is KeyboardInterrupt, the shutdown signal. -/
theorem tick_exn_none_or_interrupt (db : List Row) (env : TickEnv) (last : Option String) :
    (tick db env last).2.exn = none ∨
    (tick db env last).2.exn = some PyExn.keyboardInterrupt := by
  have ht := tagSection_exn db env last
  unfold tick
  rcases hsec : tagSection db env last with ⟨l, r⟩
  rw [hsec] at ht
  rcases he : r.exn with _ | e
  · simpa [he] using buttonSection_exn env
  · rw [he] at ht
    simpa [he] using ht

/-- A log of the first statement survives sequencing. -/
theorem seqResult_logs_left (r s : PyResult) (x : String) (hx : x ∈ r.logs) :
    x ∈ (seqResult r s).logs := by
  rcases he : r.exn with _ | e <;> simp [seqResult, he, hx]

/-- A log of the second statement survives sequencing when the first does
not raise. -/
theorem seqResult_logs_right (r s : PyResult) (x : String) (hr : r.exn = none)
    (hx : x ∈ s.logs) : x ∈ (seqResult r s).logs := by
  simp [seqResult, hr, hx]

/-- A log of the Play/Pause handler appears in the button section's logs
when that button's line reads LOW. -/
theorem buttonSection_logs_pp (env : TickEnv) (h : env.playPauseLow = true)
    (x : String) (hx : x ∈ (handle_play_pause env).logs) :
    x ∈ (buttonSection env).logs := by
  unfold buttonSection
  apply seqResult_logs_left
  simp [h, hx]

/-- A log of the Next handler appears in the button section's logs when the
Play/Pause block did not raise and Next's line reads LOW. -/
theorem buttonSection_logs_next (env : TickEnv)
    (hpp : (if env.playPauseLow then handle_play_pause env else skipResult).exn = none)
    (h : env.nextLow = true) (x : String) (hx : x ∈ (handle_next env).logs) :
    x ∈ (buttonSection env).logs := by
  unfold buttonSection
  apply seqResult_logs_right _ _ _ hpp
  apply seqResult_logs_left
  simp [h, hx]

/-- A log of the Previous handler appears in the button section's logs when
the earlier button blocks did not raise and Previous's line reads LOW. -/
theorem buttonSection_logs_prev (env : TickEnv)
    (hpp : (if env.playPauseLow then handle_play_pause env else skipResult).exn = none)
    (hnx : (if env.nextLow then handle_next env else skipResult).exn = none)
    (h : env.prevLow = true) (x : String) (hx : x ∈ (handle_previous env).logs) :
    x ∈ (buttonSection env).logs := by
  unfold buttonSection
  apply seqResult_logs_right _ _ _ hpp
  apply seqResult_logs_right _ _ _ hnx
  simp [h, hx]

/-- A failed Next command is logged by its handler. -/
theorem handle_next_fail (env : TickEnv) (e : PyExn) (hn : env.nextExn = some e)
    (he : e ≠ PyExn.keyboardInterrupt) :
    "Error skipping track" ∈ (handle_next env).logs := by
  cases e
  · simp [handle_next, hn]
  · exact absurd rfl he
  · simp [handle_next, hn]

/-- A failed Previous command is logged by its handler. -/
theorem handle_previous_fail (env : TickEnv) (e : PyExn) (hp : env.prevExn = some e)
    (he : e ≠ PyExn.keyboardInterrupt) :
    "Error going to previous track" ∈ (handle_previous env).logs := by
  cases e
  · simp [handle_previous, hp]
  · exact absurd rfl he
  · simp [handle_previous, hp]

/-- A tag-read failure caught by the tag section's boundary is logged. -/
theorem tagSection_read_fail_logged (db : List Row) (env : TickEnv)
    (last : Option String) (e : PyExn) (hr : env.readTagExn = some e)
    (he : e ≠ PyExn.keyboardInterrupt) :
    "AUTH ERROR!!" ∈ (tagSection db env last).2.logs := by
  cases e
  · simp [tagSection, hr]
  · exact absurd rfl he
  · simp [tagSection, hr]

/-- A device-transfer API failure is logged inside `play_media`. -/
theorem tagSection_transfer_fail_logged (db : List Row) (env : TickEnv)
    (last : Option String) (uri mt : String)
    (h1 : env.readTagExn = none) (h2 : some env.scannedTag ≠ last)
    (h3 : get_tag_data db env.scannedTag = some (uri, mt))
    (h4 : env.transferExn = some PyExn.spotify) :
    "Could not transfer playback. Is the speaker online?" ∈
      (tagSection db env last).2.logs := by
  simp [tagSection, play_media, h1, h2, h3, h4]

/-- A non-API transfer failure escapes `play_media` and is logged at the
tag section's boundary. -/
theorem tagSection_transfer_escape_logged (db : List Row) (env : TickEnv)
    (last : Option String) (uri mt : String) (e : PyExn)
    (h1 : env.readTagExn = none) (h2 : some env.scannedTag ≠ last)
    (h3 : get_tag_data db env.scannedTag = some (uri, mt))
    (h4 : env.transferExn = some e) (h5 : e ≠ PyExn.spotify)
    (h6 : e ≠ PyExn.keyboardInterrupt) :
    "AUTH ERROR!!" ∈ (tagSection db env last).2.logs := by
  cases e
  · exact absurd rfl h5
  · exact absurd rfl h6
  · simp [tagSection, play_media, h1, h2, h3, h4]

/-- A caught start-call failure is logged inside `play_media`. -/
theorem tagSection_start_fail_logged (db : List Row) (env : TickEnv)
    (last : Option String) (uri mt : String) (e : PyExn)
    (h1 : env.readTagExn = none) (h2 : some env.scannedTag ≠ last)
    (h3 : get_tag_data db env.scannedTag = some (uri, mt))
    (h4 : env.transferExn = none) (h5 : env.startExn = some e)
    (h6 : e ≠ PyExn.keyboardInterrupt)
    (h7 : mt = "track" ∨ mt = "album" ∨ mt = "playlist") :
    "Error starting playback" ∈ (tagSection db env last).2.logs := by
  rcases h7 with rfl | rfl | rfl <;> cases e <;>
    first
      | exact absurd rfl h6
      | simp [tagSection, play_media, h1, h2, h3, h4, h5]

/-- A log emitted by the tag section appears in the tick's logs. -/
theorem tick_logs_of_tagSection (db : List Row) (env : TickEnv)
    (last : Option String) (x : String)
    (hx : x ∈ (tagSection db env last).2.logs) : x ∈ (tick db env last).2.logs := by
  unfold tick
  rcases hsec : tagSection db env last with ⟨l, r⟩
  rw [hsec] at hx
  rcases he : r.exn with _ | e
  · simp [he]
    exact Or.inl hx
  · simpa [he] using hx

/-- A log emitted by the button section appears in the tick's logs when the
tag section did not raise. -/
theorem tick_logs_of_buttonSection (db : List Row) (env : TickEnv)
    (last : Option String) (x : String)
    (hsec : (tagSection db env last).2.exn = none)
    (hx : x ∈ (buttonSection env).logs) : x ∈ (tick db env last).2.logs := by
  unfold tick
  rcases h : tagSection db env last with ⟨l, r⟩
  rw [h] at hsec
  simp only at hsec
  simp [hsec]
  exact Or.inr hx

/-- C7: for every tick of the control loop, any failure arising in that
tick's handling is caught at the boundary of that handling and converted to
a log line — nothing but the KeyboardInterrupt shutdown signal ever escapes
a tick, and each caught failure (tag read, device transfer, start call,
playback query, pause/resume/next/previous command) produces its error log
line in that tick's output. -/
theorem tick_failures_logged (db : List Row) (env : TickEnv) (last : Option String) :
    ((tick db env last).2.exn = none ∨
     (tick db env last).2.exn = some PyExn.keyboardInterrupt) ∧
    (∀ e, env.readTagExn = some e → e ≠ PyExn.keyboardInterrupt →
        "AUTH ERROR!!" ∈ (tick db env last).2.logs) ∧
    (∀ uri mt, env.readTagExn = none → some env.scannedTag ≠ last →
        get_tag_data db env.scannedTag = some (uri, mt) →
        env.transferExn = some PyExn.spotify →
        "Could not transfer playback. Is the speaker online?" ∈
          (tick db env last).2.logs) ∧
    (∀ uri mt e, env.readTagExn = none → some env.scannedTag ≠ last →
        get_tag_data db env.scannedTag = some (uri, mt) →
        env.transferExn = some e → e ≠ PyExn.spotify → e ≠ PyExn.keyboardInterrupt →
        "AUTH ERROR!!" ∈ (tick db env last).2.logs) ∧
    (∀ uri mt e, env.readTagExn = none → some env.scannedTag ≠ last →
        get_tag_data db env.scannedTag = some (uri, mt) →
        env.transferExn = none → env.startExn = some e →
        e ≠ PyExn.keyboardInterrupt →
        (mt = "track" ∨ mt = "album" ∨ mt = "playlist") →
        "Error starting playback" ∈ (tick db env last).2.logs) ∧
    (∀ e, (tagSection db env last).2.exn = none → env.playPauseLow = true →
        env.playbackQuery = Except.error e → e ≠ PyExn.keyboardInterrupt →
        "Error toggling playback" ∈ (tick db env last).2.logs) ∧
    (∀ e, (tagSection db env last).2.exn = none → env.playPauseLow = true →
        env.playbackQuery = Except.ok (some true) → env.pauseExn = some e →
        e ≠ PyExn.keyboardInterrupt →
        "Error toggling playback" ∈ (tick db env last).2.logs) ∧
    (∀ pb e, (tagSection db env last).2.exn = none → env.playPauseLow = true →
        env.playbackQuery = Except.ok pb → pb ≠ some true →
        env.resumeExn = some e → e ≠ PyExn.keyboardInterrupt →
        "Error toggling playback" ∈ (tick db env last).2.logs) ∧
    (∀ e, (tagSection db env last).2.exn = none →
        (if env.playPauseLow then handle_play_pause env else skipResult).exn = none →
        env.nextLow = true → env.nextExn = some e → e ≠ PyExn.keyboardInterrupt →
        "Error skipping track" ∈ (tick db env last).2.logs) ∧
    (∀ e, (tagSection db env last).2.exn = none →
        (if env.playPauseLow then handle_play_pause env else skipResult).exn = none →
        (if env.nextLow then handle_next env else skipResult).exn = none →
        env.prevLow = true → env.prevExn = some e → e ≠ PyExn.keyboardInterrupt →
        "Error going to previous track" ∈ (tick db env last).2.logs) := by
  refine ⟨tick_exn_none_or_interrupt db env last, ?_, ?_, ?_, ?_, ?_, ?_, ?_, ?_, ?_⟩
  · intro e hr he
    exact tick_logs_of_tagSection db env last _
      (tagSection_read_fail_logged db env last e hr he)
  · intro uri mt h1 h2 h3 h4
    exact tick_logs_of_tagSection db env last _
      (tagSection_transfer_fail_logged db env last uri mt h1 h2 h3 h4)
  · intro uri mt e h1 h2 h3 h4 h5 h6
    exact tick_logs_of_tagSection db env last _
      (tagSection_transfer_escape_logged db env last uri mt e h1 h2 h3 h4 h5 h6)
  · intro uri mt e h1 h2 h3 h4 h5 h6 h7
    exact tick_logs_of_tagSection db env last _
      (tagSection_start_fail_logged db env last uri mt e h1 h2 h3 h4 h5 h6 h7)
  · intro e hsec hlow hq he
    exact tick_logs_of_buttonSection db env last _ hsec
      (buttonSection_logs_pp env hlow _ (hpp_query_error env e hq he).2.1)
  · intro e hsec hlow hq hp he
    exact tick_logs_of_buttonSection db env last _ hsec
      (buttonSection_logs_pp env hlow _ (hpp_pause_fail env hq e hp he))
  · intro pb e hsec hlow hq hpb hr he
    exact tick_logs_of_buttonSection db env last _ hsec
      (buttonSection_logs_pp env hlow _ (hpp_resume_fail env pb hq hpb e hr he))
  · intro e hsec hpp hlow hn he
    exact tick_logs_of_buttonSection db env last _ hsec
      (buttonSection_logs_next env hpp hlow _ (handle_next_fail env e hn he))
  · intro e hsec hpp hnx hlow hp he
    exact tick_logs_of_buttonSection db env last _ hsec
      (buttonSection_logs_prev env hpp hnx hlow _ (handle_previous_fail env e hp he))

/-- C7 witness: a concrete tick whose tag read fails with a caught
exception produces the boundary's log line. -/
theorem tick_failures_logged_w :
    "AUTH ERROR!!" ∈ (tick [] envAuthFail none).2.logs :=
  (tick_failures_logged [] envAuthFail none).2.1 PyExn.other rfl (by decide)

/-- A tick's own actions contain no hardware cleanup: `GPIO.cleanup()` is
called only by the `finally` block. -/
theorem actionsOfResult_no_cleanup (r : PyResult) :
    (actionsOfResult r).count Action.cleanup = 0 := by
  have h1 : (r.calls.map Action.call).count Action.cleanup = 0 := by
    rw [List.count_eq_zero]
    simp
  have h2 : (r.logs.map Action.log).count Action.cleanup = 0 := by
    rw [List.count_eq_zero]
    simp
  simp [actionsOfResult, List.count_append, h1, h2]

/-- C8: on every exit path of the control loop process — graceful
KeyboardInterrupt or any other exception escaping a tick — the `finally`
block invokes the hardware cleanup exactly once in the process trace. -/
theorem cleanup_exactly_once (db : List Row) (envs : Nat → TickEnv)
    (last : Option String) (k n : Nat) (tr : List Action)
    (h : runLoop db envs last k n = some tr) :
    tr.count Action.cleanup = 1 := by
  induction n generalizing last k tr with
  | zero => simp [runLoop] at h
  | succ n ih =>
      rw [runLoop] at h
      rcases ht : tick db (envs k) last with ⟨l2, r⟩
      rw [ht] at h
      rcases he : r.exn with _ | e
      · simp only [he, Option.map_eq_some'] at h
        rcases h with ⟨tr2, h2, rfl⟩
        rw [List.count_append, actionsOfResult_no_cleanup, ih l2 (k + 1) tr2 h2]
      · simp only [he, Option.some.injEq] at h
        subst h
        rw [List.count_append, List.count_append, actionsOfResult_no_cleanup]
        split <;> simp

/-- C8 witness: a KeyboardInterrupt during the first tick yields a trace
where cleanup occurs exactly once. -/
theorem cleanup_exactly_once_w :
    ([Action.log "Exiting gracefully...", Action.cleanup] : List Action).count
      Action.cleanup = 1 :=
  cleanup_exactly_once [] (fun _ => envInterrupt) none 0 1
    [Action.log "Exiting gracefully...", Action.cleanup] (by decide)

/-- Polling a button never moves the clock backwards. -/
theorem pollButton_le (env : TimedEnv) (b : Button) (t : Nat) :
    t ≤ (pollButton env b t).2 := by
  unfold pollButton
  split <;> simp

/-- An iteration never moves the clock backwards. -/
theorem loopIter_le (env : TimedEnv) (t : Nat) : t ≤ (loopIter env t).2 := by
  simp only [loopIter, pollButton]
  split <;> split <;> split <;> simp <;> omega

/-- Every press honored in an iteration was sampled no earlier than the
iteration's start, and the iteration ends at least 400 ms after the sample
(the 300 ms post-press sleep plus the 100 ms loop delay). -/
theorem loopIter_mem (env : TimedEnv) (t : Nat) :
    ∀ p ∈ (loopIter env t).1, t ≤ p.2 ∧ p.2 + 400 ≤ (loopIter env t).2 := by
  simp only [loopIter, pollButton]
  split <;> split <;> split <;> simp <;> omega

/-- Within one iteration no button is honored twice, so presses of the same
button honored in the same iteration are vacuously 400 ms apart. -/
theorem loopIter_pairwise (env : TimedEnv) (t : Nat) :
    List.Pairwise (fun p q : Button × Nat => p.1 = q.1 → p.2 + 400 ≤ q.2)
      (loopIter env t).1 := by
  simp only [loopIter, pollButton]
  split <;> split <;> split <;> simp

/-- Presses honored after time `t` are honored at times no earlier than
`t`. -/
theorem runButtons_mem (env : TimedEnv) :
    ∀ n t, ∀ p ∈ runButtons env t n, t ≤ p.2 := by
  intro n
  induction n with
  | zero => simp [runButtons]
  | succ n ih =>
      intro t p hp
      rw [runButtons] at hp
      rcases List.mem_append.1 hp with h | h
      · exact (loopIter_mem env t p h).1
      · exact le_trans (loopIter_le env t) (ih _ p h)

/-- Any two honored presses of the same button over the whole run are at
least 400 ms apart. -/
theorem runButtons_spacing (env : TimedEnv) :
    ∀ n t, List.Pairwise (fun p q : Button × Nat => p.1 = q.1 → p.2 + 400 ≤ q.2)
      (runButtons env t n) := by
  intro n
  induction n with
  | zero => simp [runButtons]
  | succ n ih =>
      intro t
      rw [runButtons]
      refine List.pairwise_append.2 ⟨loopIter_pairwise env t, ih _, ?_⟩
      intro p hp q hq _
      have h1 := (loopIter_mem env t p hp).2
      have h2 := runButtons_mem env n _ q hq
      omega

/-- C5 counterexample: the claim says two presses of the same button
separated by more than the 300 ms window are both honored.  There is no
per-button timestamp in the code: a press is honored only if the line is
LOW at a sampling instant.  Here the Previous button is pressed during
[10, 20) and again during [340, 350) — 330 ms apart — but both presses fall
between the loop's samples (taken at 0, 100, 200, 300, 400 ms), so neither
is honored. -/
theorem missed_press_cx :
    envPressTwice.level Button.prevTrack 10 = true ∧
    envPressTwice.level Button.prevTrack 340 = true ∧
    300 < 340 - 10 ∧
    runButtons envPressTwice 0 5 = [] := by
  decide

/-- C5 amended: a press occurring within the debounce window of a prior
honored press of the same button is never honored — any two honored
presses of the same button are separated by more than 300 ms (in fact by at
least 400 ms: the 300 ms post-press sleep plus the 100 ms loop delay) — but
a press separated by more than the window from the prior honored press is
honored only if the button is still held at the next sampling instant. -/
theorem button_spacing (env : TimedEnv) (t n : Nat) :
    List.Pairwise (fun p q : Button × Nat => p.1 = q.1 → 300 + p.2 < q.2)
      (runButtons env t n) := by
  refine (runButtons_spacing env n t).imp ?_
  intro p q h hpq
  have := h hpq
  omega

/-- A literal matches its own prefix, leaving the rest of the input. -/
theorem dropLit_self (p rest : List Char) : dropLit p (p ++ rest) = some rest := by
  induction p with
  | nil => rfl
  | cons c cs ih => simp [dropLit, ih]

/-- A literal fails on an input whose first character differs. -/
theorem dropLit_head_ne (p c : Char) (ps cs : List Char) (h : c ≠ p) :
    dropLit (p :: ps) (c :: cs) = none := by
  simp [dropLit, h]

/-- The whole pattern fails where its leading literal fails. -/
theorem matchHere_not_open (s : List Char)
    (h : dropLit "open.spotify.com/".data s = none) : matchHere s = none := by
  simp [matchHere, h]

/-- The pattern cannot match at a position whose character is not `o`. -/
theorem matchHere_ne_o (c : Char) (cs : List Char) (h : c ≠ 'o') :
    matchHere (c :: cs) = none := by
  apply matchHere_not_open
  have he : "open.spotify.com/".data = 'o' :: "pen.spotify.com/".data := rfl
  rw [he]
  exact dropLit_head_ne _ _ _ _ h

/-- `re.search` moves one position right past a failed match attempt. -/
theorem searchLink_step (c : Char) (cs : List Char) (h : matchHere (c :: cs) = none) :
    searchLink (c :: cs) = searchLink cs := by
  simp [searchLink, h]

/-- `re.search` stops at a successful match attempt. -/
theorem searchLink_found (rest : List Char) (r : List Char × List Char)
    (hm : matchHere ("open.spotify.com/".data ++ rest) = some r) :
    searchLink ("open.spotify.com/".data ++ rest) = some r := by
  have he : "open.spotify.com/".data ++ rest = 'o' :: ("pen.spotify.com/".data ++ rest) := rfl
  rw [he] at hm ⊢
  rw [searchLink, hm]

/-- A run of alphanumeric characters is consumed whole by the greedy
`[a-zA-Z0-9]+`. -/
theorem takeAlnum_all (l : List Char) (h : ∀ c ∈ l, c.isAlphanum) :
    takeAlnum l = (l, []) := by
  induction l with
  | nil => rfl
  | cons c cs ih =>
      have hc : c.isAlphanum := h c (List.mem_cons_self c cs)
      have ihs := ih (fun d hd => h d (List.mem_cons_of_mem c hd))
      simp [takeAlnum, hc, ihs]

/-- The alternation group on a canonical `<type>/<id>` tail. -/
theorem matchType_canonical (ty : String) (id : List Char)
    (hty : ty = "track" ∨ ty = "album" ∨ ty = "playlist") :
    matchType (ty.data ++ '/' :: id) = some (ty.data, id) := by
  rcases hty with rfl | rfl | rfl
  · have hd : dropLit "track/".data ("track".data ++ '/' :: id) = some id := by
      have h : "track".data ++ '/' :: id = "track/".data ++ id := rfl
      rw [h]
      exact dropLit_self _ _
    rw [matchType, hd]
  · have hfail : dropLit "track/".data ("album".data ++ '/' :: id) = none := by
      have h1 : "album".data ++ '/' :: id = 'a' :: ("lbum".data ++ '/' :: id) := rfl
      have h2 : "track/".data = 't' :: "rack/".data := rfl
      rw [h1, h2]
      exact dropLit_head_ne _ _ _ _ (by decide)
    have hd : dropLit "album/".data ("album".data ++ '/' :: id) = some id := by
      have h3 : "album".data ++ '/' :: id = "album/".data ++ id := rfl
      rw [h3]
      exact dropLit_self _ _
    rw [matchType, hfail, hd]
  · have hfail1 : dropLit "track/".data ("playlist".data ++ '/' :: id) = none := by
      have h1 : "playlist".data ++ '/' :: id = 'p' :: ("laylist".data ++ '/' :: id) := rfl
      have h2 : "track/".data = 't' :: "rack/".data := rfl
      rw [h1, h2]
      exact dropLit_head_ne _ _ _ _ (by decide)
    have hfail2 : dropLit "album/".data ("playlist".data ++ '/' :: id) = none := by
      have h1 : "playlist".data ++ '/' :: id = 'p' :: ("laylist".data ++ '/' :: id) := rfl
      have h2b : "album/".data = 'a' :: "lbum/".data := rfl
      rw [h1, h2b]
      exact dropLit_head_ne _ _ _ _ (by decide)
    have hd : dropLit "playlist/".data ("playlist".data ++ '/' :: id) = some id := by
      have h3 : "playlist".data ++ '/' :: id = "playlist/".data ++ id := rfl
      rw [h3]
      exact dropLit_self _ _
    rw [matchType, hfail1, hfail2, hd]

/-- The whole pattern on a canonical link tail: both capture groups. -/
theorem matchHere_canonical (ty : String) (i : Char) (is : List Char)
    (hty : ty = "track" ∨ ty = "album" ∨ ty = "playlist")
    (hal : ∀ c ∈ i :: is, c.isAlphanum) :
    matchHere ("open.spotify.com/".data ++ (ty.data ++ '/' :: (i :: is)))
      = some (ty.data, i :: is) := by
  rw [matchHere, dropLit_self]
  dsimp only
  rw [matchType_canonical ty (i :: is) hty]
  dsimp only
  rw [takeAlnum_all (i :: is) hal]

/-- C9: a submitted link of the canonical form
`https://open.spotify.com/<type>/<id>` with `<type>` one of track, album,
playlist and `<id>` a nonempty alphanumeric run extracts to the canonical
URI `spotify:<type>:<id>` and that media type; a link the pattern does not
match anywhere is rejected by the /add route and by the /edit route with a
400 client error, leaving the table unchanged (no row created or updated);
and on a successful extraction /add inserts exactly the extracted
URI/type and /edit rewrites the addressed row to them. -/
theorem link_extraction :
    (∀ (ty : String) (id : List Char),
        (ty = "track" ∨ ty = "album" ∨ ty = "playlist") → id ≠ [] →
        (∀ c ∈ id, c.isAlphanum) →
        extract_uri_and_type
            (String.mk ("https://".data ++
              ("open.spotify.com/".data ++ (ty.data ++ '/' :: id))))
          = some (String.mk ("spotify:".data ++ ty.data ++ [':'] ++ id), ty)) ∧
    (∀ (db : List DbRow) (form : FormData),
        extract_uri_and_type form.spotify_link = none →
        add db form = (db, AddResponse.badRequest "Invalid Spotify link")) ∧
    (∀ (db : List DbRow) (form : FormData) (uri mt : String),
        extract_uri_and_type form.spotify_link = some (uri, mt) →
        add db form =
          (db ++ [{ tag_id := form.tag_id, spotify_uri := uri,
                    media_type := mt, comment := form.comment }],
           AddResponse.redirectIndex)) ∧
    (∀ (db : List (Nat × DbRow)) (rowId : Nat) (form : FormData),
        extract_uri_and_type form.spotify_link = none →
        edit db rowId form = (db, AddResponse.badRequest "Invalid Spotify link")) ∧
    (∀ (db : List (Nat × DbRow)) (rowId : Nat) (form : FormData) (uri mt : String),
        extract_uri_and_type form.spotify_link = some (uri, mt) →
        (edit db rowId form).2 = AddResponse.redirectIndex ∧
        ∀ p ∈ (edit db rowId form).1, p.1 = rowId →
          p.2.spotify_uri = uri ∧ p.2.media_type = mt ∧
          p.2.tag_id = form.tag_id ∧ p.2.comment = form.comment) := by
  refine ⟨?_, ?_, ?_, ?_, ?_⟩
  · intro ty id hty hne hal
    rcases id with _ | ⟨i, is⟩
    · exact absurd rfl hne
    unfold extract_uri_and_type
    have hdata : (String.mk ("https://".data ++
        ("open.spotify.com/".data ++ (ty.data ++ '/' :: (i :: is))))).data
        = 'h' :: 't' :: 't' :: 'p' :: 's' :: ':' :: '/' :: '/' ::
          ("open.spotify.com/".data ++ (ty.data ++ '/' :: (i :: is))) := rfl
    rw [hdata]
    rw [searchLink_step _ _ (matchHere_ne_o _ _ (by decide))]
    rw [searchLink_step _ _ (matchHere_ne_o _ _ (by decide))]
    rw [searchLink_step _ _ (matchHere_ne_o _ _ (by decide))]
    rw [searchLink_step _ _ (matchHere_ne_o _ _ (by decide))]
    rw [searchLink_step _ _ (matchHere_ne_o _ _ (by decide))]
    rw [searchLink_step _ _ (matchHere_ne_o _ _ (by decide))]
    rw [searchLink_step _ _ (matchHere_ne_o _ _ (by decide))]
    rw [searchLink_step _ _ (matchHere_ne_o _ _ (by decide))]
    rw [searchLink_found _ _ (matchHere_canonical ty i is hty hal)]
  · intro db form h
    simp [add, h]
  · intro db form uri mt h
    simp [add, h]
  · intro db rowId form h
    simp [edit, h]
  · intro db rowId form uri mt h
    constructor
    · simp [edit, h]
    · intro p hp hid
      simp only [edit, h] at hp
      rcases List.mem_map.1 hp with ⟨q, hq, rfl⟩
      by_cases hqi : q.1 = rowId
      · simp [hqi]
      · simp only [if_neg hqi] at hid
        exact absurd hid hqi

/-- C9 witness: the specification's example link extracts to
`spotify:track:abc123` with type `track`; a link missing the
`/track|album|playlist/` segment is rejected by /add and by /edit with no
row created or updated; and a successful /edit rewrites the addressed row
to the extracted URI and type. -/
theorem link_extraction_w :
    extract_uri_and_type "https://open.spotify.com/track/abc123"
      = some ("spotify:track:abc123", "track") ∧
    add [] { tag_id := "1", spotify_link := "https://open.spotify.com/artist/abc123",
             comment := "x" }
      = ([], AddResponse.badRequest "Invalid Spotify link") ∧
    edit [(1, rowOld)] 1
        { tag_id := "5", spotify_link := "https://open.spotify.com/artist/abc123",
          comment := "c" }
      = ([(1, rowOld)], AddResponse.badRequest "Invalid Spotify link") ∧
    (edit [(1, rowOld)] 1
        { tag_id := "5", spotify_link := "https://open.spotify.com/album/xyz9",
          comment := "c" }).2 = AddResponse.redirectIndex ∧
    (edit [(1, rowOld)] 1
        { tag_id := "5", spotify_link := "https://open.spotify.com/album/xyz9",
          comment := "c" }).1
      = [(1, { tag_id := "5", spotify_uri := "spotify:album:xyz9",
               media_type := "album", comment := "c" })] := by
  refine ⟨?_, ?_, ?_, ?_, ?_⟩
  · exact link_extraction.1 "track" "abc123".data (Or.inl rfl) (by decide) (by decide)
  · exact link_extraction.2.1 [] _ (by decide)
  · exact link_extraction.2.2.2.1 [(1, rowOld)] 1 _ (by decide)
  · exact (link_extraction.2.2.2.2 [(1, rowOld)] 1 _ "spotify:album:xyz9" "album"
      (by decide)).1
  · decide

end TonyBox
